import Mathlib

/-!
Verification development for the route / stop / connection core of the
flet-python tour-planning application.

The Python source is shallowly embedded:
* rows of the MySQL tables rutas, paradas and vecinos become Lean structures,
  and the whole store becomes a DB value (created_at columns are not modelled;
  where the source orders rows by creation time the embedding keeps table
  order, and primary-key uniqueness of id columns is assumed when a SQL join
  is folded to a membership test);
* each controller method becomes a pure function from an exception oracle
  (deciding whether db.connect succeeds and whether the k-th cursor/commit
  call raises) and a DB value to a result record plus the resulting DB.
  Mutations become visible only at the commit call, matching the
  non-autocommit MySQL connection whose uncommitted work is rolled back when
  the connection is closed in the finally block;
* the Python str.strip becomes pyStrip, an executable whitespace trim over
  the character list (the builtin String trim is defined by well-founded recursion
  and does not reduce inside the kernel), float distances become Rat, and
  integer truthiness (0 is falsy) is spelled out at each use;
* the Dijkstra view (ruta_graph_view.py) becomes a graph built from the
  paradas and conexiones lists, with networkx shortest_path modelled
  denotationally as the minimum-weight simple path.
-/

/-- Row of the rutas table; also the model object of models/ruta.py
(created_at is not modelled). -/
structure Ruta where
  id : Int
  usuario_id : Int
  nombre : String
  descripcion : String
deriving DecidableEq

/-- Row of the paradas table; also the model object of models/parada.py
(created_at is not modelled, a Python id of None is modelled as 0). -/
structure Parada where
  id : Int
  ruta_id : Int
  nombre : String
  descripcion : Option String
deriving DecidableEq

/-- Row of the vecinos table (a directed connection between two stops). -/
structure Vecino where
  parada_origen_id : Int
  parada_destino_id : Int
  distancia : Rat
deriving DecidableEq

/-- The three tables of the backing store. -/
structure DB where
  rutas : List Ruta
  paradas : List Parada
  vecinos : List Vecino
deriving DecidableEq

/-- The connection model object of models/conexion.py (the optional stop-name
fields only decorate display strings and are not modelled). -/
structure Conexion where
  parada_origen_id : Int
  parada_destino_id : Int
  distancia : Rat
deriving DecidableEq

/-- Conexion.is_valid of models/conexion.py.  In Python both ids are ints
here, so the guard not-id or id less-or-equal 0 collapses to id less-or-equal
0, and distancia is a float, so the None test disappears. -/
def Conexion.is_valid (c : Conexion) : Bool :=
  if c.parada_origen_id ≤ 0 then false
  else if c.parada_destino_id ≤ 0 then false
  else if c.parada_origen_id = c.parada_destino_id then false
  else if c.distancia < 0 then false
  else true

/-- Conexion.get_validation_errors of models/conexion.py. -/
def Conexion.get_validation_errors (c : Conexion) : List String :=
  (if c.parada_origen_id ≤ 0 then ["ID de parada origen inválido"] else []) ++
  (if c.parada_destino_id ≤ 0 then ["ID de parada destino inválido"] else []) ++
  (if c.parada_origen_id = c.parada_destino_id then
    ["⚠️ Error: La parada no puede conectarse a sí misma"] else []) ++
  (if c.distancia < 0 then ["La distancia debe ser mayor o igual a 0"] else [])

/-- The Python str.strip: drop leading and trailing whitespace.  Defined by
structural recursion over the character list so that concrete instances
reduce inside the kernel. -/
def pyStrip (s : String) : String :=
  ⟨((s.data.dropWhile Char.isWhitespace).reverse.dropWhile
      Char.isWhitespace).reverse⟩

/-- Constructing a Ruta model object: the dataclass __post_init__ strips
nombre and descripcion (stripping an empty string is the identity, so the
truthiness guard collapses). A fresh object carries no id yet; 0 stands for
the Python None. -/
def mkRuta (usuario_id : Int) (nombre descripcion : String) : Ruta :=
  { id := 0, usuario_id := usuario_id, nombre := pyStrip nombre,
    descripcion := pyStrip descripcion }

/-- Ruta.is_valid of models/ruta.py: only requires a non-empty stripped
name. -/
def Ruta.is_valid (r : Ruta) : Bool :=
  !(r.nombre = "") && !(pyStrip r.nombre = "")

/-- Ruta.get_validation_errors of models/ruta.py. -/
def Ruta.get_validation_errors (r : Ruta) : List String :=
  (if r.nombre = "" ∨ pyStrip r.nombre = "" then
    ["El nombre de la ruta es obligatorio"]
  else if (pyStrip r.nombre).length < 2 then
    ["El nombre debe tener al menos 2 caracteres"]
  else if (pyStrip r.nombre).length > 100 then
    ["El nombre no puede tener más de 100 caracteres"]
  else []) ++
  (if !(r.descripcion = "") ∧ r.descripcion.length > 1000 then
    ["La descripción no puede tener más de 1000 caracteres"]
  else [])

/-- Parada.is_valid of models/parada.py: non-empty stripped name and truthy
ruta_id (any non-zero int is truthy in Python). -/
def Parada.is_valid (p : Parada) : Bool :=
  !(p.nombre = "") && !(pyStrip p.nombre = "") && !(p.ruta_id = 0)

/-- Parada.get_validation_errors of models/parada.py. -/
def Parada.get_validation_errors (p : Parada) : List String :=
  (if p.nombre = "" ∨ pyStrip p.nombre = "" then
    ["El nombre de la parada es obligatorio"] else []) ++
  (if p.ruta_id = 0 then ["La parada debe pertenecer a una ruta"] else [])

/- SQL queries issued by the controllers, folded to pure functions of the
DB value. -/

/-- SELECT COUNT(*) FROM rutas WHERE id = route_id AND usuario_id = user_id. -/
def routeOwnedCount (db : DB) (route_id user_id : Int) : Nat :=
  (db.rutas.filter fun r => r.id = route_id ∧ r.usuario_id = user_id).length

/-- SELECT COUNT(*) FROM paradas WHERE ruta_id = route_id AND id IN (a, b). -/
def stopsInRouteCount (db : DB) (route_id a b : Int) : Nat :=
  (db.paradas.filter fun p => p.ruta_id = route_id ∧ (p.id = a ∨ p.id = b)).length

/-- SELECT COUNT(*) FROM paradas WHERE id = stop_id AND ruta_id = route_id. -/
def stopInRouteCount (db : DB) (stop_id route_id : Int) : Nat :=
  (db.paradas.filter fun p => p.id = stop_id ∧ p.ruta_id = route_id).length

/-- SELECT COUNT(*) FROM vecinos WHERE parada_origen_id = o AND
parada_destino_id = d. -/
def vecinoCount (db : DB) (o d : Int) : Nat :=
  (db.vecinos.filter fun v => v.parada_origen_id = o ∧ v.parada_destino_id = d).length

/-- Membership test behind the INNER JOIN paradas ... ON ... checks
(paradas.id is a primary key, so a join multiplies row counts by at most 1). -/
def stopInRoute (db : DB) (stop_id route_id : Int) : Bool :=
  db.paradas.any fun p => p.id = stop_id && p.ruta_id = route_id

/-- The vecinos rows of a route: vecinos INNER JOIN both endpoint paradas
restricted to ruta_id = route_id. -/
def routeVecinos (db : DB) (route_id : Int) : List Vecino :=
  db.vecinos.filter fun v =>
    stopInRoute db v.parada_origen_id route_id &&
    stopInRoute db v.parada_destino_id route_id

/-- SELECT COUNT(*) over the joined vecinos of delete_connection. -/
def vecinoInRouteCount (db : DB) (o d route_id : Int) : Nat :=
  ((routeVecinos db route_id).filter fun v =>
    v.parada_origen_id = o ∧ v.parada_destino_id = d).length

/-- SELECT parada_destino_id FROM vecinos WHERE parada_origen_id = s. -/
def destinationsOf (db : DB) (s : Int) : List Int :=
  (db.vecinos.filter fun v => v.parada_origen_id = s).map (·.parada_destino_id)

/-- SELECT COUNT(*) FROM rutas WHERE usuario_id = user_id AND nombre = n. -/
def rutaNameCount (db : DB) (user_id : Int) (n : String) : Nat :=
  (db.rutas.filter fun r => r.usuario_id = user_id ∧ r.nombre = n).length

/-- SELECT COUNT(*) FROM paradas WHERE ruta_id = route_id AND nombre = n. -/
def paradaNameCount (db : DB) (route_id : Int) (n : String) : Nat :=
  (db.paradas.filter fun p => p.ruta_id = route_id ∧ p.nombre = n).length

/-- SELECT COUNT(*) FROM paradas WHERE ruta_id = route_id AND nombre = n AND
id != stop_id (duplicate check of update_stop). -/
def paradaNameCountExcept (db : DB) (route_id : Int) (n : String) (stop_id : Int) : Nat :=
  (db.paradas.filter fun p =>
    p.ruta_id = route_id ∧ p.nombre = n ∧ p.id ≠ stop_id).length

/-- SELECT COUNT(*) FROM paradas p INNER JOIN rutas r ON p.ruta_id = r.id
WHERE p.id = stop_id AND p.ruta_id = route_id AND r.usuario_id = user_id. -/
def paradaOwnedCount (db : DB) (stop_id route_id user_id : Int) : Nat :=
  (db.paradas.filter fun p =>
    p.id = stop_id ∧ p.ruta_id = route_id ∧
    db.rutas.any fun r => r.id = p.ruta_id && r.usuario_id = user_id).length

/-- AUTO_INCREMENT id for a new rutas row (cursor.lastrowid). -/
def freshRutaId (db : DB) : Int :=
  (db.rutas.map (·.id)).foldl max 0 + 1

/-- AUTO_INCREMENT id for a new paradas row (cursor.lastrowid). -/
def freshParadaId (db : DB) : Int :=
  (db.paradas.map (·.id)).foldl max 0 + 1

/- Exception oracle: db.connect may fail (returning False) and every cursor
operation or commit may raise.  Calls are numbered from 0 inside each
controller method; dbCall ora k is the k-th such call. -/

/-- An opaque-to-the-controller Python exception (the except branches bind it
only to log it). -/
inductive PyEx where
  | exn
deriving DecidableEq

/-- Oracle deciding the outcome of the database interactions of one
controller call. -/
structure Ora where
  connectOk : Bool
  throwAt : Nat → Bool

/-- Oracle of an undisturbed run: connect succeeds, nothing raises. -/
def oraOk : Ora := ⟨true, fun _ => false⟩

/-- Oracle raising exactly at the k-th database call. -/
def oraThrow (k : Nat) : Ora := ⟨true, fun j => j = k⟩

/-- The k-th cursor/commit call: either returns or raises. -/
def dbCall (ora : Ora) (k : Nat) : Except PyEx Unit :=
  if ora.throwAt k then .error .exn else .ok ()

/- Result records: the dicts returned by the controllers, with their
success/message keys and the payload key of each operation. -/

/-- Result dict of operations returning a routes list. -/
structure RutasResult where
  success : Bool
  message : String
  routes : List Ruta
deriving DecidableEq

/-- Result dict of operations returning one optional route. -/
structure RutaResult where
  success : Bool
  message : String
  route : Option Ruta
deriving DecidableEq

/-- Result dict of operations returning only success and message. -/
structure SimpleResult where
  success : Bool
  message : String
deriving DecidableEq

/-- Result dict of operations returning a paradas list. -/
structure ParadasResult where
  success : Bool
  message : String
  paradas : List Parada
deriving DecidableEq

/-- Result dict of operations returning one optional parada. -/
structure ParadaResult where
  success : Bool
  message : String
  parada : Option Parada
deriving DecidableEq

/-- Result dict of operations returning a conexiones list. -/
structure ConexionesResult where
  success : Bool
  message : String
  conexiones : List Conexion
deriving DecidableEq

/-- Result dict of operations returning one optional conexion. -/
structure ConexionResult where
  success : Bool
  message : String
  conexion : Option Conexion
deriving DecidableEq

/- RoutesController (src/controllers/routes_controller.py).  Each method is
split into a body running inside the try block (raising via Except) and a
wrapper realising the except-branch, which converts any exception into the
catch-all error dict of that method. -/

/-- Try-block of RoutesController.get_user_routes.  The ORDER BY created_at
DESC of the SELECT is not modelled (created_at is absent); table order
stands in. -/
def get_user_routes_body (ora : Ora) (db : DB) (user_id : Int) :
    Except PyEx (RutasResult × DB) :=
  if user_id ≤ 0 then
    .ok ({ success := false, message := "ID de usuario inválido", routes := [] }, db)
  else if !ora.connectOk then
    .ok ({ success := false, message := "Error de conexión a la base de datos",
           routes := [] }, db)
  else if ora.throwAt 0 then .error .exn
  else
    let routes := db.rutas.filter fun r => r.usuario_id = user_id
    .ok ({ success := true,
           message := "Se encontraron " ++ toString routes.length ++ " rutas",
           routes := routes }, db)

/-- RoutesController.get_user_routes with its except branch. -/
def get_user_routes (ora : Ora) (db : DB) (user_id : Int) : RutasResult × DB :=
  match get_user_routes_body ora db user_id with
  | .ok r => r
  | .error _ =>
    ({ success := false, message := "Error al obtener las rutas", routes := [] }, db)

/-- Try-block of RoutesController.create_route.  Call 0 is the duplicate-name
SELECT, call 1 the INSERT, call 2 the commit. -/
def create_route_body (ora : Ora) (db : DB) (user_id : Int)
    (nombre descripcion : String) : Except PyEx (RutaResult × DB) :=
  let nueva_ruta := mkRuta user_id nombre descripcion
  if !nueva_ruta.is_valid then
    .ok ({ success := false,
           message := String.intercalate "; " nueva_ruta.get_validation_errors,
           route := none }, db)
  else if !ora.connectOk then
    .ok ({ success := false, message := "Error de conexión a la base de datos",
           route := none }, db)
  else if ora.throwAt 0 then .error .exn
  else if rutaNameCount db user_id (pyStrip nombre) > 0 then
    .ok ({ success := false, message := "Ya existe una ruta con ese nombre",
           route := none }, db)
  else if ora.throwAt 1 then .error .exn
  else if ora.throwAt 2 then .error .exn
  else
    let ruta_id := freshRutaId db
    .ok ({ success := true, message := "Ruta creada exitosamente",
           route := some { nueva_ruta with id := ruta_id } },
         { db with rutas := db.rutas ++
             [{ id := ruta_id, usuario_id := user_id, nombre := pyStrip nombre,
                descripcion := pyStrip descripcion }] })

/-- RoutesController.create_route with its except branch. -/
def create_route (ora : Ora) (db : DB) (user_id : Int)
    (nombre descripcion : String) : RutaResult × DB :=
  match create_route_body ora db user_id nombre descripcion with
  | .ok r => r
  | .error _ =>
    ({ success := false, message := "Error al crear la ruta", route := none }, db)

/-- Try-block of RoutesController.get_route_by_id. -/
def get_route_by_id_body (ora : Ora) (db : DB) (route_id user_id : Int) :
    Except PyEx (RutaResult × DB) :=
  if route_id ≤ 0 then
    .ok ({ success := false, message := "ID de ruta inválido", route := none }, db)
  else if !ora.connectOk then
    .ok ({ success := false, message := "Error de conexión a la base de datos",
           route := none }, db)
  else if ora.throwAt 0 then .error .exn
  else
    match (db.rutas.filter fun r => r.id = route_id ∧ r.usuario_id = user_id).head? with
    | none =>
      .ok ({ success := false, message := "Ruta no encontrada", route := none }, db)
    | some ruta =>
      .ok ({ success := true, message := "Ruta encontrada", route := some ruta }, db)

/-- RoutesController.get_route_by_id with its except branch. -/
def get_route_by_id (ora : Ora) (db : DB) (route_id user_id : Int) :
    RutaResult × DB :=
  match get_route_by_id_body ora db route_id user_id with
  | .ok r => r
  | .error _ =>
    ({ success := false, message := "Error al obtener la ruta", route := none }, db)

/-- Cascade of DELETE FROM rutas: the ON DELETE CASCADE constraints remove
the paradas of the deleted rutas and the vecinos touching those paradas. -/
def cascadeDeleteRuta (db : DB) (route_id user_id : Int) : DB :=
  let deadParada : Int → Bool := fun pid =>
    db.paradas.any fun p => p.id = pid && p.ruta_id = route_id
  { rutas := db.rutas.filter fun r => ¬(r.id = route_id ∧ r.usuario_id = user_id),
    paradas := db.paradas.filter fun p => p.ruta_id ≠ route_id,
    vecinos := db.vecinos.filter fun v =>
      !deadParada v.parada_origen_id && !deadParada v.parada_destino_id }

/-- Try-block of RoutesController.delete_route.  Call 0 is the ownership
SELECT, call 1 the DELETE, call 2 the commit. -/
def delete_route_body (ora : Ora) (db : DB) (route_id user_id : Int) :
    Except PyEx (SimpleResult × DB) :=
  if !ora.connectOk then
    .ok ({ success := false, message := "Error de conexión a la base de datos" }, db)
  else if ora.throwAt 0 then .error .exn
  else if routeOwnedCount db route_id user_id = 0 then
    .ok ({ success := false, message := "Ruta no encontrada o no tienes permisos" }, db)
  else if ora.throwAt 1 then .error .exn
  else if ora.throwAt 2 then .error .exn
  else
    .ok ({ success := true, message := "Ruta eliminada exitosamente" },
         cascadeDeleteRuta db route_id user_id)

/-- RoutesController.delete_route with its except branch. -/
def delete_route (ora : Ora) (db : DB) (route_id user_id : Int) :
    SimpleResult × DB :=
  match delete_route_body ora db route_id user_id with
  | .ok r => r
  | .error _ => ({ success := false, message := "Error al eliminar la ruta" }, db)

/- ParadasController (src/controllers/paradas_controller.py). -/

/-- Try-block of ParadasController.get_route_stops.  Call 0 is the ownership
SELECT, call 1 the paradas SELECT (its ORDER BY created_at ASC is not
modelled; table order stands in). -/
def get_route_stops_body (ora : Ora) (db : DB) (route_id user_id : Int) :
    Except PyEx (ParadasResult × DB) :=
  if route_id ≤ 0 then
    .ok ({ success := false, message := "ID de ruta inválido", paradas := [] }, db)
  else if !ora.connectOk then
    .ok ({ success := false, message := "Error de conexión a la base de datos",
           paradas := [] }, db)
  else if ora.throwAt 0 then .error .exn
  else if routeOwnedCount db route_id user_id = 0 then
    .ok ({ success := false, message := "Ruta no encontrada o no tienes permisos",
           paradas := [] }, db)
  else if ora.throwAt 1 then .error .exn
  else
    let paradas := db.paradas.filter fun p => p.ruta_id = route_id
    .ok ({ success := true,
           message := "Se encontraron " ++ toString paradas.length ++ " paradas",
           paradas := paradas }, db)

/-- ParadasController.get_route_stops with its except branch. -/
def get_route_stops (ora : Ora) (db : DB) (route_id user_id : Int) :
    ParadasResult × DB :=
  match get_route_stops_body ora db route_id user_id with
  | .ok r => r
  | .error _ =>
    ({ success := false, message := "Error al obtener las paradas", paradas := [] }, db)

/-- The descripcion_final processing of ParadasController.create_stop: only a
non-empty string with non-empty strip survives, stripped. -/
def descripcionFinal : Option String → Option String
  | none => none
  | some s => if ¬(s = "") ∧ ¬(pyStrip s = "") then some (pyStrip s) else none

/-- Try-block of ParadasController.create_stop.  Call 0 is the ownership
SELECT, call 1 the duplicate-name SELECT, call 2 the INSERT, call 3 the
commit. -/
def create_stop_body (ora : Ora) (db : DB) (route_id user_id : Int)
    (nombre : String) (descripcion : Option String) :
    Except PyEx (ParadaResult × DB) :=
  let nueva_parada : Parada :=
    { id := 0, ruta_id := route_id, nombre := nombre,
      descripcion := descripcionFinal descripcion }
  if !nueva_parada.is_valid then
    .ok ({ success := false,
           message := String.intercalate "; " nueva_parada.get_validation_errors,
           parada := none }, db)
  else if !ora.connectOk then
    .ok ({ success := false, message := "Error de conexión a la base de datos",
           parada := none }, db)
  else if ora.throwAt 0 then .error .exn
  else if routeOwnedCount db route_id user_id = 0 then
    .ok ({ success := false, message := "Ruta no encontrada o no tienes permisos",
           parada := none }, db)
  else if ora.throwAt 1 then .error .exn
  else if paradaNameCount db route_id (pyStrip nombre) > 0 then
    .ok ({ success := false,
           message := "Ya existe una parada con ese nombre en esta ruta",
           parada := none }, db)
  else if ora.throwAt 2 then .error .exn
  else if ora.throwAt 3 then .error .exn
  else
    let parada_id := freshParadaId db
    .ok ({ success := true, message := "Parada creada exitosamente",
           parada := some { nueva_parada with id := parada_id } },
         { db with paradas := db.paradas ++
             [{ id := parada_id, ruta_id := route_id, nombre := pyStrip nombre,
                descripcion := descripcionFinal descripcion }] })

/-- ParadasController.create_stop with its except branch. -/
def create_stop (ora : Ora) (db : DB) (route_id user_id : Int)
    (nombre : String) (descripcion : Option String) : ParadaResult × DB :=
  match create_stop_body ora db route_id user_id nombre descripcion with
  | .ok r => r
  | .error _ =>
    ({ success := false, message := "Error al crear la parada", parada := none }, db)

/-- Try-block of ParadasController.update_stop.  Call 0 is the joined
existence/ownership SELECT, call 1 the duplicate-name SELECT, call 2 the
UPDATE, call 3 the commit.  The UPDATE writes the stripped name and the raw
descripcion parameter. -/
def update_stop_body (ora : Ora) (db : DB) (stop_id route_id user_id : Int)
    (nombre : String) (descripcion : Option String) :
    Except PyEx (SimpleResult × DB) :=
  if nombre = "" ∨ pyStrip nombre = "" then
    .ok ({ success := false, message := "El nombre de la parada es obligatorio" }, db)
  else if !ora.connectOk then
    .ok ({ success := false, message := "Error de conexión a la base de datos" }, db)
  else if ora.throwAt 0 then .error .exn
  else if paradaOwnedCount db stop_id route_id user_id = 0 then
    .ok ({ success := false, message := "Parada no encontrada o no tienes permisos" }, db)
  else if ora.throwAt 1 then .error .exn
  else if paradaNameCountExcept db route_id (pyStrip nombre) stop_id > 0 then
    .ok ({ success := false,
           message := "Ya existe una parada con ese nombre en esta ruta" }, db)
  else if ora.throwAt 2 then .error .exn
  else if ora.throwAt 3 then .error .exn
  else
    .ok ({ success := true, message := "Parada actualizada exitosamente" },
         { db with paradas := db.paradas.map fun p =>
             if p.id = stop_id ∧ p.ruta_id = route_id then
               { p with nombre := pyStrip nombre, descripcion := descripcion }
             else p })

/-- ParadasController.update_stop with its except branch. -/
def update_stop (ora : Ora) (db : DB) (stop_id route_id user_id : Int)
    (nombre : String) (descripcion : Option String) : SimpleResult × DB :=
  match update_stop_body ora db stop_id route_id user_id nombre descripcion with
  | .ok r => r
  | .error _ => ({ success := false, message := "Error al actualizar la parada" }, db)

/-- Cascade of DELETE FROM paradas WHERE id AND ruta_id: the vecinos rows
referencing the deleted parada go with it (paradas.id is a primary key, so
when the guarding existence check passed, the deleted row is exactly
stop_id). -/
def cascadeDeleteParada (db : DB) (stop_id route_id : Int) : DB :=
  { db with
    paradas := db.paradas.filter fun p => ¬(p.id = stop_id ∧ p.ruta_id = route_id),
    vecinos := db.vecinos.filter fun v =>
      v.parada_origen_id ≠ stop_id ∧ v.parada_destino_id ≠ stop_id }

/-- Try-block of ParadasController.delete_stop.  Call 0 is the joined
existence/ownership SELECT, call 1 the DELETE, call 2 the commit. -/
def delete_stop_body (ora : Ora) (db : DB) (stop_id route_id user_id : Int) :
    Except PyEx (SimpleResult × DB) :=
  if !ora.connectOk then
    .ok ({ success := false, message := "Error de conexión a la base de datos" }, db)
  else if ora.throwAt 0 then .error .exn
  else if paradaOwnedCount db stop_id route_id user_id = 0 then
    .ok ({ success := false, message := "Parada no encontrada o no tienes permisos" }, db)
  else if ora.throwAt 1 then .error .exn
  else if ora.throwAt 2 then .error .exn
  else
    .ok ({ success := true, message := "Parada eliminada exitosamente" },
         cascadeDeleteParada db stop_id route_id)

/-- ParadasController.delete_stop with its except branch. -/
def delete_stop (ora : Ora) (db : DB) (stop_id route_id user_id : Int) :
    SimpleResult × DB :=
  match delete_stop_body ora db stop_id route_id user_id with
  | .ok r => r
  | .error _ => ({ success := false, message := "Error al eliminar la parada" }, db)

/- ConexionesController (src/controllers/conexiones_controller.py). -/

/-- Try-block of ConexionesController.get_route_connections.  Call 0 is the
ownership SELECT, call 1 the joined vecinos SELECT (its ORDER BY stop names
is not modelled; table order stands in). -/
def get_route_connections_body (ora : Ora) (db : DB) (route_id user_id : Int) :
    Except PyEx (ConexionesResult × DB) :=
  if route_id ≤ 0 then
    .ok ({ success := false, message := "ID de ruta inválido", conexiones := [] }, db)
  else if !ora.connectOk then
    .ok ({ success := false, message := "Error de conexión a la base de datos",
           conexiones := [] }, db)
  else if ora.throwAt 0 then .error .exn
  else if routeOwnedCount db route_id user_id = 0 then
    .ok ({ success := false, message := "Ruta no encontrada o no tienes permisos",
           conexiones := [] }, db)
  else if ora.throwAt 1 then .error .exn
  else
    let conexiones := (routeVecinos db route_id).map fun v =>
      Conexion.mk v.parada_origen_id v.parada_destino_id v.distancia
    .ok ({ success := true,
           message := "Se encontraron " ++ toString conexiones.length ++ " conexiones",
           conexiones := conexiones }, db)

/-- ConexionesController.get_route_connections with its except branch. -/
def get_route_connections (ora : Ora) (db : DB) (route_id user_id : Int) :
    ConexionesResult × DB :=
  match get_route_connections_body ora db route_id user_id with
  | .ok r => r
  | .error _ =>
    ({ success := false, message := "Error al obtener las conexiones",
       conexiones := [] }, db)

/-- Try-block of ConexionesController.create_connection.  The Conexion model
validation runs before any database interaction; call 0 is the ownership
SELECT, call 1 the endpoints SELECT, call 2 the duplicate SELECT, call 3 the
INSERT, call 4 the commit. -/
def create_connection_body (ora : Ora) (db : DB)
    (route_id user_id parada_origen_id parada_destino_id : Int)
    (distancia : Rat) : Except PyEx (ConexionResult × DB) :=
  let nueva_conexion :=
    Conexion.mk parada_origen_id parada_destino_id distancia
  if !nueva_conexion.is_valid then
    .ok ({ success := false,
           message := String.intercalate "; " nueva_conexion.get_validation_errors,
           conexion := none }, db)
  else if !ora.connectOk then
    .ok ({ success := false, message := "Error de conexión a la base de datos",
           conexion := none }, db)
  else if ora.throwAt 0 then .error .exn
  else if routeOwnedCount db route_id user_id = 0 then
    .ok ({ success := false, message := "Ruta no encontrada o no tienes permisos",
           conexion := none }, db)
  else if ora.throwAt 1 then .error .exn
  else if stopsInRouteCount db route_id parada_origen_id parada_destino_id ≠ 2 then
    .ok ({ success := false,
           message := "Una o ambas paradas no pertenecen a esta ruta",
           conexion := none }, db)
  else if parada_origen_id = parada_destino_id then
    .ok ({ success := false,
           message := "⚠️ Error: No se puede crear una conexión de una parada a sí misma",
           conexion := none }, db)
  else if ora.throwAt 2 then .error .exn
  else if vecinoCount db parada_origen_id parada_destino_id > 0 then
    .ok ({ success := false, message := "Ya existe una conexión entre estas paradas",
           conexion := none }, db)
  else if ora.throwAt 3 then .error .exn
  else if ora.throwAt 4 then .error .exn
  else
    .ok ({ success := true, message := "Conexión creada exitosamente",
           conexion := some nueva_conexion },
         { db with vecinos := db.vecinos ++
             [⟨parada_origen_id, parada_destino_id, distancia⟩] })

/-- ConexionesController.create_connection with its except branch. -/
def create_connection (ora : Ora) (db : DB)
    (route_id user_id parada_origen_id parada_destino_id : Int)
    (distancia : Rat) : ConexionResult × DB :=
  match create_connection_body ora db route_id user_id
      parada_origen_id parada_destino_id distancia with
  | .ok r => r
  | .error _ =>
    ({ success := false, message := "Error al crear la conexión", conexion := none }, db)

/-- Try-block of ConexionesController.delete_connection.  Call 0 is the
ownership SELECT, call 1 the joined existence SELECT, call 2 the DELETE,
call 3 the commit. -/
def delete_connection_body (ora : Ora) (db : DB)
    (route_id user_id parada_origen_id parada_destino_id : Int) :
    Except PyEx (SimpleResult × DB) :=
  if !ora.connectOk then
    .ok ({ success := false, message := "Error de conexión a la base de datos" }, db)
  else if ora.throwAt 0 then .error .exn
  else if routeOwnedCount db route_id user_id = 0 then
    .ok ({ success := false, message := "Ruta no encontrada o no tienes permisos" }, db)
  else if ora.throwAt 1 then .error .exn
  else if vecinoInRouteCount db parada_origen_id parada_destino_id route_id = 0 then
    .ok ({ success := false, message := "Conexión no encontrada" }, db)
  else if ora.throwAt 2 then .error .exn
  else if ora.throwAt 3 then .error .exn
  else
    .ok ({ success := true, message := "Conexión eliminada exitosamente" },
         { db with vecinos := db.vecinos.filter fun v =>
             ¬(v.parada_origen_id = parada_origen_id ∧
               v.parada_destino_id = parada_destino_id) })

/-- ConexionesController.delete_connection with its except branch. -/
def delete_connection (ora : Ora) (db : DB)
    (route_id user_id parada_origen_id parada_destino_id : Int) :
    SimpleResult × DB :=
  match delete_connection_body ora db route_id user_id
      parada_origen_id parada_destino_id with
  | .ok r => r
  | .error _ => ({ success := false, message := "Error al eliminar la conexión" }, db)

/-- Try-block of ConexionesController.get_stop_connections.  Call 0 is the
ownership SELECT, call 1 the stop-in-route SELECT, call 2 the joined vecinos
SELECT (ORDER BY stop names not modelled). -/
def get_stop_connections_body (ora : Ora) (db : DB)
    (stop_id route_id user_id : Int) : Except PyEx (ConexionesResult × DB) :=
  if stop_id ≤ 0 ∨ route_id ≤ 0 then
    .ok ({ success := false, message := "ID de parada o ruta inválido",
           conexiones := [] }, db)
  else if !ora.connectOk then
    .ok ({ success := false, message := "Error de conexión a la base de datos",
           conexiones := [] }, db)
  else if ora.throwAt 0 then .error .exn
  else if routeOwnedCount db route_id user_id = 0 then
    .ok ({ success := false, message := "Ruta no encontrada o no tienes permisos",
           conexiones := [] }, db)
  else if ora.throwAt 1 then .error .exn
  else if stopInRouteCount db stop_id route_id = 0 then
    .ok ({ success := false, message := "Parada no encontrada en esta ruta",
           conexiones := [] }, db)
  else if ora.throwAt 2 then .error .exn
  else
    let conexiones := ((routeVecinos db route_id).filter fun v =>
        v.parada_origen_id = stop_id ∨ v.parada_destino_id = stop_id).map fun v =>
      Conexion.mk v.parada_origen_id v.parada_destino_id v.distancia
    .ok ({ success := true,
           message := "Se encontraron " ++ toString conexiones.length ++ " conexiones",
           conexiones := conexiones }, db)

/-- ConexionesController.get_stop_connections with its except branch. -/
def get_stop_connections (ora : Ora) (db : DB) (stop_id route_id user_id : Int) :
    ConexionesResult × DB :=
  match get_stop_connections_body ora db stop_id route_id user_id with
  | .ok r => r
  | .error _ =>
    ({ success := false, message := "Error al obtener las conexiones",
       conexiones := [] }, db)

/-- The main SELECT of get_available_stops_for_connection: stops of the route
other than the source stop and not already a destination of an outgoing
connection of the source stop, ORDER BY nombre. -/
def availableStops (db : DB) (stop_id route_id : Int) : List Parada :=
  (db.paradas.filter fun p =>
    p.ruta_id = route_id ∧ p.id ≠ stop_id ∧ p.id ∉ destinationsOf db stop_id
  ).mergeSort fun p q => decide (p.nombre ≤ q.nombre)

/-- Try-block of ConexionesController.get_available_stops_for_connection.
Call 0 is the ownership SELECT, call 1 the main SELECT; calls 2 to 5 are the
purely diagnostic SELECT statements that run (and log) only when the main
SELECT came back empty. -/
def get_available_stops_for_connection_body (ora : Ora) (db : DB)
    (stop_id route_id user_id : Int) : Except PyEx (ParadasResult × DB) :=
  if stop_id ≤ 0 ∨ route_id ≤ 0 then
    .ok ({ success := false, message := "ID de parada o ruta inválido",
           paradas := [] }, db)
  else if !ora.connectOk then
    .ok ({ success := false, message := "Error de conexión a la base de datos",
           paradas := [] }, db)
  else if ora.throwAt 0 then .error .exn
  else if routeOwnedCount db route_id user_id = 0 then
    .ok ({ success := false, message := "Ruta no encontrada o no tienes permisos",
           paradas := [] }, db)
  else if ora.throwAt 1 then .error .exn
  else
    let paradas_data := availableStops db stop_id route_id
    if paradas_data.length = 0 then
      if ora.throwAt 2 then .error .exn
      else if (db.paradas.filter fun p => p.ruta_id = route_id).length > 1 then
        if ora.throwAt 3 then .error .exn
        else if ora.throwAt 4 then .error .exn
        else if ora.throwAt 5 then .error .exn
        else
          .ok ({ success := true,
                 message := "No se encontraron paradas disponibles para conectar",
                 paradas := [] }, db)
      else
        .ok ({ success := true,
               message := "No se encontraron paradas disponibles para conectar",
               paradas := [] }, db)
    else
      .ok ({ success := true,
             message := "Se encontraron " ++ toString paradas_data.length ++
               " paradas disponibles",
             paradas := paradas_data }, db)

/-- ConexionesController.get_available_stops_for_connection with its except
branch. -/
def get_available_stops_for_connection (ora : Ora) (db : DB)
    (stop_id route_id user_id : Int) : ParadasResult × DB :=
  match get_available_stops_for_connection_body ora db stop_id route_id user_id with
  | .ok r => r
  | .error _ =>
    ({ success := false, message := "Error al obtener las paradas disponibles",
       paradas := [] }, db)

/-- Try-block of ConexionesController.get_route_stops_for_connections.
Call 0 is the ownership SELECT, call 1 the paradas SELECT ORDER BY nombre. -/
def get_route_stops_for_connections_body (ora : Ora) (db : DB)
    (route_id user_id : Int) : Except PyEx (ParadasResult × DB) :=
  if !ora.connectOk then
    .ok ({ success := false, message := "Error de conexión a la base de datos",
           paradas := [] }, db)
  else if ora.throwAt 0 then .error .exn
  else if routeOwnedCount db route_id user_id = 0 then
    .ok ({ success := false, message := "Ruta no encontrada o no tienes permisos",
           paradas := [] }, db)
  else if ora.throwAt 1 then .error .exn
  else
    let paradas := (db.paradas.filter fun p => p.ruta_id = route_id
      ).mergeSort fun p q => decide (p.nombre ≤ q.nombre)
    .ok ({ success := true,
           message := "Se encontraron " ++ toString paradas.length ++ " paradas",
           paradas := paradas }, db)

/-- ConexionesController.get_route_stops_for_connections with its except
branch. -/
def get_route_stops_for_connections (ora : Ora) (db : DB)
    (route_id user_id : Int) : ParadasResult × DB :=
  match get_route_stops_for_connections_body ora db route_id user_id with
  | .ok r => r
  | .error _ =>
    ({ success := false, message := "Error al obtener las paradas", paradas := [] }, db)

/-- The re-target test of update_connection: the Python condition
parada_destino_anterior_id and parada_destino_id != parada_destino_anterior_id
(None and 0 are falsy). -/
def retargetCond (prev : Option Int) (parada_destino_id : Int) : Bool :=
  match prev with
  | none => false
  | some p => !(p = 0) && !(parada_destino_id = p)

/-- Try-block of ConexionesController.update_connection.  The self-loop and
negative-distance validations run before any database interaction.  Call 0 is
the ownership SELECT, call 1 the endpoints SELECT; on the re-target branch
call 2 checks the old edge, call 3 the new edge, call 4 is the DELETE, call 5
the INSERT and call 6 the commit; on the distance-only branch call 2 checks
the edge, call 3 is the UPDATE and call 4 the commit. -/
def update_connection_body (ora : Ora) (db : DB)
    (route_id user_id parada_origen_id parada_destino_id : Int)
    (distancia : Rat) (parada_destino_anterior_id : Option Int) :
    Except PyEx (SimpleResult × DB) :=
  if parada_origen_id = parada_destino_id then
    .ok ({ success := false,
           message := "⚠️ Error: No se puede conectar una parada consigo misma" }, db)
  else if distancia < 0 then
    .ok ({ success := false, message := "La distancia no puede ser negativa" }, db)
  else if !ora.connectOk then
    .ok ({ success := false, message := "Error de conexión a la base de datos" }, db)
  else if ora.throwAt 0 then .error .exn
  else if routeOwnedCount db route_id user_id = 0 then
    .ok ({ success := false, message := "Ruta no encontrada o no tienes permisos" }, db)
  else if ora.throwAt 1 then .error .exn
  else if stopsInRouteCount db route_id parada_origen_id parada_destino_id ≠ 2 then
    .ok ({ success := false, message := "Una o ambas paradas no pertenecen a esta ruta" }, db)
  else if retargetCond parada_destino_anterior_id parada_destino_id then
    let prev := parada_destino_anterior_id.getD 0
    if ora.throwAt 2 then .error .exn
    else if vecinoCount db parada_origen_id prev = 0 then
      .ok ({ success := false,
             message := "No existe la conexión original que intentas modificar" }, db)
    else if ora.throwAt 3 then .error .exn
    else if vecinoCount db parada_origen_id parada_destino_id > 0 then
      .ok ({ success := false,
             message := "Ya existe una conexión hacia la nueva parada destino" }, db)
    else if ora.throwAt 4 then .error .exn
    else if ora.throwAt 5 then .error .exn
    else if ora.throwAt 6 then .error .exn
    else
      .ok ({ success := true, message := "Conexión actualizada exitosamente" },
           { db with vecinos :=
               (db.vecinos.filter fun v =>
                 ¬(v.parada_origen_id = parada_origen_id ∧
                   v.parada_destino_id = prev)) ++
               [⟨parada_origen_id, parada_destino_id, distancia⟩] })
  else
    if ora.throwAt 2 then .error .exn
    else if vecinoCount db parada_origen_id parada_destino_id = 0 then
      .ok ({ success := false,
             message := "No existe una conexión entre estas paradas para actualizar" }, db)
    else if ora.throwAt 3 then .error .exn
    else if ora.throwAt 4 then .error .exn
    else
      .ok ({ success := true, message := "Conexión actualizada exitosamente" },
           { db with vecinos := db.vecinos.map fun v =>
               if v.parada_origen_id = parada_origen_id ∧
                   v.parada_destino_id = parada_destino_id then
                 { v with distancia := distancia }
               else v })

/-- ConexionesController.update_connection with its except branch. -/
def update_connection (ora : Ora) (db : DB)
    (route_id user_id parada_origen_id parada_destino_id : Int)
    (distancia : Rat) (parada_destino_anterior_id : Option Int) :
    SimpleResult × DB :=
  match update_connection_body ora db route_id user_id parada_origen_id
      parada_destino_id distancia parada_destino_anterior_id with
  | .ok r => r
  | .error _ => ({ success := false, message := "Error al actualizar la conexión" }, db)

/- RutaGraphView (src/views/ruta_graph_view.py): the graph built by
_build_graph and the Dijkstra handler _calculate_shortest_path. -/

/-- The state of the graph view that _calculate_shortest_path reads: the
paradas and conexiones of the route and the two dropdown selections
(None when nothing is selected). -/
structure GraphView where
  paradas : List Parada
  conexiones : List Conexion
  start_node : Option Int
  end_node : Option Int
deriving DecidableEq

/-- Node membership in the networkx DiGraph built by _build_graph: add_node
for every parada, and add_edge adds missing endpoint nodes implicitly. -/
def nodeMem (g : GraphView) (n : Int) : Bool :=
  g.paradas.any (fun p => p.id = n) ||
  g.conexiones.any (fun c => c.parada_origen_id = n || c.parada_destino_id = n)

/-- Weight of the directed edge u to v: repeated add_edge calls overwrite,
so the last conexion on the ordered pair wins. -/
def edgeWeight (g : GraphView) (u v : Int) : Option Rat :=
  ((g.conexiones.filter fun c =>
    c.parada_origen_id = u ∧ c.parada_destino_id = v).getLast?).map (·.distancia)

/-- Successors of u in the built graph, with edge weights. -/
def succsOf (g : GraphView) (u : Int) : List (Int × Rat) :=
  (((g.conexiones.filter fun c => c.parada_origen_id = u).map
      (·.parada_destino_id)).dedup).filterMap fun v =>
    (edgeWeight g u v).map fun w => (v, w)

/-- All simple paths from u to t avoiding the visited list, with their total
weights; fuel bounds the recursion depth (one more than the node count
suffices, since simple paths repeat no node). -/
def pathsFrom (g : GraphView) : Nat → Int → Int → List Int → List (List Int × Rat)
  | 0, _, _, _ => []
  | fuel + 1, u, t, visited =>
    if u = t then [([u], 0)]
    else
      (succsOf g u).foldr
        (fun vw acc =>
          if visited.contains vw.1 then acc
          else
            ((pathsFrom g fuel vw.1 t (vw.1 :: visited)).map
              fun pw => (u :: pw.1, vw.2 + pw.2)) ++ acc)
        []

/-- Fuel large enough to enumerate every simple path of the graph. -/
def graphFuel (g : GraphView) : Nat :=
  g.paradas.length + 2 * g.conexiones.length + 1

/-- Denotation of nx.shortest_path together with nx.shortest_path_length with
method dijkstra and weight distancia: the minimum-total-weight path between
the two nodes, none when no directed path exists.  Among equal-weight paths
networkx returns the one fixed by its heap tie-break; the model keeps the
first enumerated one, which no claim distinguishes. -/
def nx_shortest_path (g : GraphView) (s t : Int) : Option (List Int × Rat) :=
  (pathsFrom g (graphFuel g) s t [s]).foldl
    (fun best pw =>
      match best with
      | none => some pw
      | some b => if pw.2 < b.2 then some pw else some b)
    none

/-- The five outcomes of _calculate_shortest_path, keyed by the message the
handler shows: the two warning early returns, a computed optimal path, and
the two networkx exception branches. -/
inductive PathOutcome where
  | warnSelect
  | warnSame
  | success (path : List Int) (dist : Rat)
  | noPath
  | nodeNotFound
deriving DecidableEq

/-- _calculate_shortest_path of ruta_graph_view.py.  The first guard is the
Python truthiness test (not start or not end, with None and 0 falsy), the
second the equality early return that warns that origin and destination must
differ; only then does the handler call networkx. -/
def calculate_shortest_path (g : GraphView) : PathOutcome :=
  match g.start_node, g.end_node with
  | some s, some t =>
    if s = 0 ∨ t = 0 then .warnSelect
    else if s = t then .warnSame
    else if !nodeMem g s ∨ !nodeMem g t then .nodeNotFound
    else
      match nx_shortest_path g s t with
      | some pw => .success pw.1 pw.2
      | none => .noPath
  | _, _ => .warnSelect

/-- _update_calculate_button of ruta_graph_view.py: the calculate button is
enabled only when both dropdowns are set (is not None) and differ. -/
def can_calculate (start_node end_node : Option Int) : Bool :=
  start_node.isSome && end_node.isSome && !(start_node = end_node)

/- Concrete fixtures used by witnesses and counterexamples. -/

/-- Store with route 1 of user 1, stops 1 Plaza, 2 Mercado, 3 Parque and the
single connection from 1 to 2 (the Scenario D configuration of the spec). -/
def dbW : DB :=
  { rutas := [⟨1, 1, "Centro", ""⟩],
    paradas := [⟨1, 1, "Plaza", none⟩, ⟨2, 1, "Mercado", none⟩, ⟨3, 1, "Parque", none⟩],
    vecinos := [⟨1, 2, 3/2⟩] }

/-- dbW with a second connection from 1 to 3. -/
def dbW2 : DB :=
  { dbW with vecinos := [⟨1, 2, 3/2⟩, ⟨1, 3, 2⟩] }

/-- The empty store. -/
def dbEmpty : DB := ⟨[], [], []⟩

/-- Graph view over the stops and connection of dbW with both dropdowns set
to stop 1. -/
def gSame : GraphView :=
  { paradas := [⟨1, 1, "Plaza", none⟩, ⟨2, 1, "Mercado", none⟩, ⟨3, 1, "Parque", none⟩],
    conexiones := [⟨1, 2, 3/2⟩],
    start_node := some 1,
    end_node := some 1 }

/- Shared helper lemmas about the embedded definitions. -/

/-- Unfolding of Conexion.is_valid into its four conditions. -/
theorem conexion_is_valid_iff (c : Conexion) :
    c.is_valid = true ↔
      0 < c.parada_origen_id ∧ 0 < c.parada_destino_id ∧
      c.parada_origen_id ≠ c.parada_destino_id ∧ 0 ≤ c.distancia := by
  unfold Conexion.is_valid
  split_ifs with h1 h2 h3 h4
  · simp only [Bool.false_eq_true, false_iff]
    rintro ⟨ho, -, -, -⟩; omega
  · simp only [Bool.false_eq_true, false_iff]
    rintro ⟨-, hd, -, -⟩; omega
  · simp only [Bool.false_eq_true, false_iff]
    rintro ⟨-, -, hne, -⟩; exact hne h3
  · simp only [Bool.false_eq_true, false_iff]
    rintro ⟨-, -, -, hdd⟩; exact absurd h4 (not_lt.mpr hdd)
  · simp only [true_iff]
    exact ⟨not_le.mp h1, not_le.mp h2, h3, not_lt.mp h4⟩

/-- A self-loop connection never validates. -/
theorem conexion_selfloop_invalid (a : Int) (d : Rat) :
    (Conexion.mk a a d).is_valid = false := by
  unfold Conexion.is_valid
  split_ifs <;> simp_all

/-- A negative distance never validates. -/
theorem conexion_negative_invalid (c : Conexion) (h : c.distancia < 0) :
    c.is_valid = false := by
  unfold Conexion.is_valid
  split_ifs <;> simp_all

/-- The self-loop message is always among the validation errors of a
self-loop connection. -/
theorem selfloop_msg_mem (a : Int) (d : Rat) :
    "⚠️ Error: La parada no puede conectarse a sí misma" ∈
      (Conexion.mk a a d).get_validation_errors := by
  unfold Conexion.get_validation_errors
  simp

/-- The negative-distance message is always among the validation errors of a
negative-distance connection. -/
theorem negdist_msg_mem (c : Conexion) (h : c.distancia < 0) :
    "La distancia debe ser mayor o igual a 0" ∈ c.get_validation_errors := by
  unfold Conexion.get_validation_errors
  simp [h]

/-- The endpoints SELECT is symmetric in the two stop ids (IN (a, b) equals
IN (b, a)). -/
theorem stopsInRouteCount_comm (db : DB) (rid a b : Int) :
    stopsInRouteCount db rid b a = stopsInRouteCount db rid a b := by
  unfold stopsInRouteCount
  congr 1
  apply List.filter_congr
  intro p _
  exact decide_eq_decide.mpr (by tauto)

/-- Membership in the availability SELECT result. -/
theorem mem_availableStops (db : DB) (s rid : Int) (p : Parada) :
    p ∈ availableStops db s rid ↔
      (p ∈ db.paradas ∧ p.ruta_id = rid ∧ p.id ≠ s ∧
        ∀ v ∈ db.vecinos,
          ¬(v.parada_origen_id = s ∧ v.parada_destino_id = p.id)) := by
  unfold availableStops destinationsOf
  rw [List.mem_mergeSort, List.mem_filter]
  simp only [decide_eq_true_eq, List.mem_map, List.mem_filter]
  constructor
  · rintro ⟨hp, hr, hs, hnot⟩
    refine ⟨hp, hr, hs, ?_⟩
    rintro v hv ⟨hvo, hvd⟩
    exact hnot ⟨v, ⟨hv, by simp [hvo]⟩, hvd⟩
  · rintro ⟨hp, hr, hs, hnot⟩
    refine ⟨hp, hr, hs, ?_⟩
    rintro ⟨v, ⟨hv, hvo⟩, hvd⟩
    exact hnot v hv ⟨by simpa using hvo, hvd⟩

/-- C1 (amended): when both dropdowns select the same stop s, the
shortest-path handler does not compute a trivial path; it returns the
warning that origin and destination must differ, and the calculate button
is disabled for that selection. -/
theorem C1_equal_endpoints_warn (g : GraphView) (s : Int) (hs : s ≠ 0)
    (h1 : g.start_node = some s) (h2 : g.end_node = some s) :
    calculate_shortest_path g = PathOutcome.warnSame ∧
    can_calculate g.start_node g.end_node = false := by
  constructor
  · simp [calculate_shortest_path, h1, h2, hs]
  · simp [can_calculate, h1, h2]

/-- Witness for C1_equal_endpoints_warn at stop 1 of the concrete graph. -/
theorem C1_equal_endpoints_warn_witness :
    calculate_shortest_path gSame = PathOutcome.warnSame ∧
    can_calculate gSame.start_node gSame.end_node = false :=
  C1_equal_endpoints_warn gSame 1 (by decide) rfl rfl

/-- C1 counterexample: stop 1 is a node of the concrete graph and both
selections equal 1, yet the handler does not return the single-node path of
distance 0 that the claim promises. -/
theorem C1_trivial_path_refuted :
    nodeMem gSame 1 = true ∧ gSame.start_node = some 1 ∧ gSame.end_node = some 1 ∧
    calculate_shortest_path gSame ≠ PathOutcome.success [1] 0 := by
  decide

/-- C3: the claim is right and the code is wrong.  The one-character name A
is below the documented 2-character minimum, and the model's own
get_validation_errors flags it, yet is_valid accepts it, so create_route
reports success and inserts the row. -/
theorem C3_short_name_accepted_and_inserted :
    (mkRuta 1 "A" "").is_valid = true ∧
    (mkRuta 1 "A" "").get_validation_errors =
      ["El nombre debe tener al menos 2 caracteres"] ∧
    (create_route oraOk dbEmpty 1 "A" "").1.success = true ∧
    ((create_route oraOk dbEmpty 1 "A" "").2.rutas.map Ruta.nombre) = ["A"] := by
  decide

/-- C5: a self-loop create_connection fails under every oracle (so before
any database interaction), its message is the joined validation-error list
which always contains the self-loop error, and the store is unchanged. -/
theorem C5_self_loop_rejected (ora : Ora) (db : DB) (rid uid a : Int) (d : Rat) :
    (create_connection ora db rid uid a a d).1 =
      { success := false,
        message :=
          String.intercalate "; " (Conexion.mk a a d).get_validation_errors,
        conexion := none } ∧
    "⚠️ Error: La parada no puede conectarse a sí misma" ∈
      (Conexion.mk a a d).get_validation_errors ∧
    (create_connection ora db rid uid a a d).2 = db := by
  have hv := conexion_selfloop_invalid a d
  refine ⟨?_, selfloop_msg_mem a d, ?_⟩ <;>
    simp [create_connection, create_connection_body, hv]

/-- C7: a negative-distance create_connection fails under every oracle (so
before any write is attempted), its message is the joined validation-error
list which always contains the invalid-distance error, and the store is
unchanged. -/
theorem C7_negative_distance_rejected (ora : Ora) (db : DB) (rid uid o d : Int)
    (dist : Rat) (hneg : dist < 0) :
    (create_connection ora db rid uid o d dist).1 =
      { success := false,
        message :=
          String.intercalate "; " (Conexion.mk o d dist).get_validation_errors,
        conexion := none } ∧
    "La distancia debe ser mayor o igual a 0" ∈
      (Conexion.mk o d dist).get_validation_errors ∧
    (create_connection ora db rid uid o d dist).2 = db := by
  have hv := conexion_negative_invalid (Conexion.mk o d dist) hneg
  refine ⟨?_, negdist_msg_mem _ hneg, ?_⟩ <;>
    simp [create_connection, create_connection_body, hv]

/-- Witness for C7_negative_distance_rejected: Scenario C, distance -0.5. -/
theorem C7_negative_distance_rejected_witness :
    (create_connection oraOk dbW 1 1 1 2 (-(1/2))).1 =
      { success := false,
        message :=
          String.intercalate "; " (Conexion.mk 1 2 (-(1/2))).get_validation_errors,
        conexion := none } ∧
    "La distancia debe ser mayor o igual a 0" ∈
      (Conexion.mk 1 2 (-(1/2))).get_validation_errors ∧
    (create_connection oraOk dbW 1 1 1 2 (-(1/2))).2 = dbW :=
  C7_negative_distance_rejected oraOk dbW 1 1 1 2 (-(1/2)) (by norm_num)

/-- C2 counterexample: route 1 is not owned by user 2, and the requested
connection is a self-loop; the reported error is the self-loop validation
message, not the ownership message that the claimed validation order would
make the earliest violated rule. -/
theorem C2_selfloop_beats_ownership :
    routeOwnedCount dbW 1 2 = 0 ∧
    (create_connection oraOk dbW 1 2 2 2 1).1.message =
      "⚠️ Error: La parada no puede conectarse a sí misma" ∧
    (create_connection oraOk dbW 1 2 2 2 1).1.message ≠
      "Ruta no encontrada o no tienes permisos" := by
  decide

/-- C2 (amended): create_connection runs the Conexion model validation
(positive ids, no self-loop, non-negative distance) before any database
interaction, and only then, in order, the ownership check, the
endpoint-membership check and the ordered-pair uniqueness check; for inputs
violating several rules the error reported is the earliest in THIS order, so
model-validation errors win over ownership. -/
theorem C2_validation_order (db : DB) (rid uid o d : Int) (dist : Rat) :
    (∀ ora, (Conexion.mk o d dist).is_valid = false →
      create_connection ora db rid uid o d dist =
        ({ success := false,
           message := String.intercalate "; "
             (Conexion.mk o d dist).get_validation_errors,
           conexion := none }, db)) ∧
    ((Conexion.mk o d dist).is_valid = true → routeOwnedCount db rid uid = 0 →
      create_connection oraOk db rid uid o d dist =
        ({ success := false, message := "Ruta no encontrada o no tienes permisos",
           conexion := none }, db)) ∧
    ((Conexion.mk o d dist).is_valid = true → routeOwnedCount db rid uid ≠ 0 →
      stopsInRouteCount db rid o d ≠ 2 →
      create_connection oraOk db rid uid o d dist =
        ({ success := false,
           message := "Una o ambas paradas no pertenecen a esta ruta",
           conexion := none }, db)) ∧
    ((Conexion.mk o d dist).is_valid = true → routeOwnedCount db rid uid ≠ 0 →
      stopsInRouteCount db rid o d = 2 → vecinoCount db o d ≠ 0 →
      create_connection oraOk db rid uid o d dist =
        ({ success := false, message := "Ya existe una conexión entre estas paradas",
           conexion := none }, db)) ∧
    ((Conexion.mk o d dist).is_valid = true → routeOwnedCount db rid uid ≠ 0 →
      stopsInRouteCount db rid o d = 2 → vecinoCount db o d = 0 →
      create_connection oraOk db rid uid o d dist =
        ({ success := true, message := "Conexión creada exitosamente",
           conexion := some (Conexion.mk o d dist) },
         { db with vecinos := db.vecinos ++ [⟨o, d, dist⟩] })) := by
  refine ⟨?_, ?_, ?_, ?_, ?_⟩
  · intro ora hv
    simp [create_connection, create_connection_body, hv]
  · intro hv hown
    simp [create_connection, create_connection_body, hv, oraOk, hown]
  · intro hv hown hstops
    simp [create_connection, create_connection_body, hv, oraOk, hown, hstops]
  · intro hv hown hstops hdup
    have hne := (conexion_is_valid_iff _).mp hv
    simp [create_connection, create_connection_body, hv, oraOk, hown, hstops,
      hne.2.2.1, Nat.pos_of_ne_zero hdup]
  · intro hv hown hstops hdup
    have hne := (conexion_is_valid_iff _).mp hv
    simp [create_connection, create_connection_body, hv, oraOk, hown, hstops,
      hne.2.2.1, hdup]

/-- Witness for C2_validation_order, exercising each of the five branches at
concrete inputs. -/
theorem C2_validation_order_witness :
    create_connection oraOk dbW 1 1 2 2 1 =
      ({ success := false,
         message := String.intercalate "; "
           (Conexion.mk 2 2 1).get_validation_errors,
         conexion := none }, dbW) ∧
    create_connection oraOk dbW 1 2 2 3 1 =
      ({ success := false, message := "Ruta no encontrada o no tienes permisos",
         conexion := none }, dbW) ∧
    create_connection oraOk dbW 1 1 2 7 1 =
      ({ success := false, message := "Una o ambas paradas no pertenecen a esta ruta",
         conexion := none }, dbW) ∧
    create_connection oraOk dbW 1 1 1 2 1 =
      ({ success := false, message := "Ya existe una conexión entre estas paradas",
         conexion := none }, dbW) ∧
    create_connection oraOk dbW 1 1 2 3 1 =
      ({ success := true, message := "Conexión creada exitosamente",
         conexion := some (Conexion.mk 2 3 1) },
       { dbW with vecinos := dbW.vecinos ++ [⟨2, 3, 1⟩] }) :=
  ⟨(C2_validation_order dbW 1 1 2 2 1).1 oraOk (by decide),
   (C2_validation_order dbW 1 2 2 3 1).2.1 (by decide) (by decide),
   (C2_validation_order dbW 1 1 2 7 1).2.2.1 (by decide) (by decide) (by decide),
   (C2_validation_order dbW 1 1 1 2 1).2.2.2.1 (by decide) (by decide) (by decide)
     (by decide),
   (C2_validation_order dbW 1 1 2 3 1).2.2.2.2 (by decide) (by decide) (by decide)
     (by decide)⟩

/-- C6 counterexample: the connection from 1 to 2 already exists, yet a
second create_connection on the same ordered pair with the negative distance
-1 reports the invalid-distance validation error, not the duplicate error,
and the reverse call with that distance fails rather than succeeding. -/
theorem C6_negative_distance_beats_duplicate :
    vecinoCount dbW 1 2 ≠ 0 ∧
    (create_connection oraOk dbW 1 1 1 2 (-1)).1.message =
      "La distancia debe ser mayor o igual a 0" ∧
    (create_connection oraOk dbW 1 1 1 2 (-1)).1.message ≠
      "Ya existe una conexión entre estas paradas" ∧
    (create_connection oraOk dbW 1 1 2 1 (-1)).1.success = false := by
  decide

/-- C6 (amended): for every non-negative distance d2, creating a second
connection on an already-present ordered pair (a, b) fails with the
duplicate error and leaves the store unchanged, while the reverse ordered
pair (b, a), when not yet present, is inserted successfully: the duplicate
check is over the ordered pair only and the graph is directed. -/
theorem C6_duplicate_is_directed (db : DB) (rid uid a b : Int) (d2 : Rat)
    (hd : 0 ≤ d2) (ha : 0 < a) (hb : 0 < b) (hab : a ≠ b)
    (hown : routeOwnedCount db rid uid ≠ 0)
    (hstops : stopsInRouteCount db rid a b = 2)
    (hdup : vecinoCount db a b ≠ 0) :
    create_connection oraOk db rid uid a b d2 =
      ({ success := false, message := "Ya existe una conexión entre estas paradas",
         conexion := none }, db) ∧
    (vecinoCount db b a = 0 →
      create_connection oraOk db rid uid b a d2 =
        ({ success := true, message := "Conexión creada exitosamente",
           conexion := some (Conexion.mk b a d2) },
         { db with vecinos := db.vecinos ++ [⟨b, a, d2⟩] })) := by
  have hv : (Conexion.mk a b d2).is_valid = true :=
    (conexion_is_valid_iff _).mpr ⟨ha, hb, hab, hd⟩
  have hv2 : (Conexion.mk b a d2).is_valid = true :=
    (conexion_is_valid_iff _).mpr ⟨hb, ha, fun h => hab h.symm, hd⟩
  constructor
  · have hne := (conexion_is_valid_iff _).mp hv
    simp [create_connection, create_connection_body, hv, oraOk, hown, hstops,
      hne.2.2.1, Nat.pos_of_ne_zero hdup]
  · intro hrev
    have hstops2 : stopsInRouteCount db rid b a = 2 :=
      (stopsInRouteCount_comm db rid a b).trans hstops
    have hba : b ≠ a := fun h => hab h.symm
    simp [create_connection, create_connection_body, hv2, oraOk, hown, hstops2,
      hba, hrev]

/-- Witness for C6_duplicate_is_directed on the concrete store with edge
1 to 2 present and 2 to 1 absent. -/
theorem C6_duplicate_is_directed_witness :
    create_connection oraOk dbW 1 1 1 2 5 =
      ({ success := false, message := "Ya existe una conexión entre estas paradas",
         conexion := none }, dbW) ∧
    create_connection oraOk dbW 1 1 2 1 5 =
      ({ success := true, message := "Conexión creada exitosamente",
         conexion := some (Conexion.mk 2 1 5) },
       { dbW with vecinos := dbW.vecinos ++ [⟨2, 1, 5⟩] }) := by
  have h := C6_duplicate_is_directed dbW 1 1 1 2 5 (by norm_num) (by decide)
    (by decide) (by decide) (by decide) (by decide) (by decide)
  exact ⟨h.1, h.2 (by decide)⟩

/-- C4: re-target and distance-only semantics of update_connection.  On the
re-target branch (previous destination supplied, non-zero and different) the
old edge must exist, the new edge must not, and the DELETE plus INSERT are
one transaction: an exception at the INSERT (call 5, after the DELETE has
executed) commits nothing and leaves the store, hence the old edge, intact.
With the previous destination absent or equal only the distance of the
existing edge changes, and a missing edge reports not-found without
modification. -/
theorem C4_update_connection_semantics (db : DB) (rid uid o d p : Int)
    (dist : Rat) (hod : o ≠ d) (hdist : 0 ≤ dist)
    (hown : routeOwnedCount db rid uid ≠ 0)
    (hstops : stopsInRouteCount db rid o d = 2) :
    (retargetCond (some p) d = true → vecinoCount db o p = 0 →
      update_connection oraOk db rid uid o d dist (some p) =
        ({ success := false,
           message := "No existe la conexión original que intentas modificar" }, db)) ∧
    (retargetCond (some p) d = true → vecinoCount db o p ≠ 0 →
      vecinoCount db o d ≠ 0 →
      update_connection oraOk db rid uid o d dist (some p) =
        ({ success := false,
           message := "Ya existe una conexión hacia la nueva parada destino" }, db)) ∧
    (retargetCond (some p) d = true → vecinoCount db o p ≠ 0 →
      vecinoCount db o d = 0 →
      update_connection oraOk db rid uid o d dist (some p) =
        ({ success := true, message := "Conexión actualizada exitosamente" },
         { db with vecinos :=
             (db.vecinos.filter fun v =>
               ¬(v.parada_origen_id = o ∧ v.parada_destino_id = p)) ++
             [⟨o, d, dist⟩] })) ∧
    (retargetCond (some p) d = true → vecinoCount db o p ≠ 0 →
      vecinoCount db o d = 0 →
      update_connection (oraThrow 5) db rid uid o d dist (some p) =
        ({ success := false, message := "Error al actualizar la conexión" }, db)) ∧
    (∀ prev, retargetCond prev d = false → vecinoCount db o d = 0 →
      update_connection oraOk db rid uid o d dist prev =
        ({ success := false,
           message := "No existe una conexión entre estas paradas para actualizar" }, db)) ∧
    (∀ prev, retargetCond prev d = false → vecinoCount db o d ≠ 0 →
      update_connection oraOk db rid uid o d dist prev =
        ({ success := true, message := "Conexión actualizada exitosamente" },
         { db with vecinos := db.vecinos.map fun v =>
             if v.parada_origen_id = o ∧ v.parada_destino_id = d then
               { v with distancia := dist }
             else v })) := by
  have hnneg := not_lt.mpr hdist
  refine ⟨?_, ?_, ?_, ?_, ?_, ?_⟩
  · intro hrt hold
    simp [update_connection, update_connection_body, oraOk, hod, hnneg, hown,
      hstops, hrt, hold]
  · intro hrt hold hnew
    simp [update_connection, update_connection_body, oraOk, hod, hnneg, hown,
      hstops, hrt, hold, Nat.pos_of_ne_zero hnew]
  · intro hrt hold hnew
    simp [update_connection, update_connection_body, oraOk, hod, hnneg, hown,
      hstops, hrt, hold, hnew]
  · intro hrt hold hnew
    simp [update_connection, update_connection_body, oraThrow, hod, hnneg, hown,
      hstops, hrt, hold, hnew]
  · intro prev hrt hmiss
    simp [update_connection, update_connection_body, oraOk, hod, hnneg, hown,
      hstops, hrt, hmiss]
  · intro prev hrt hexist
    simp [update_connection, update_connection_body, oraOk, hod, hnneg, hown,
      hstops, hrt, hexist]

/-- Witness for C4_update_connection_semantics, exercising all six branches
at concrete inputs over dbW and dbW2. -/
theorem C4_update_connection_semantics_witness :
    update_connection oraOk dbW 1 1 1 2 5 (some 3) =
      ({ success := false,
         message := "No existe la conexión original que intentas modificar" }, dbW) ∧
    update_connection oraOk dbW2 1 1 1 3 5 (some 2) =
      ({ success := false,
         message := "Ya existe una conexión hacia la nueva parada destino" }, dbW2) ∧
    update_connection oraOk dbW 1 1 1 3 5 (some 2) =
      ({ success := true, message := "Conexión actualizada exitosamente" },
       { dbW with vecinos :=
           (dbW.vecinos.filter fun v =>
             ¬(v.parada_origen_id = 1 ∧ v.parada_destino_id = 2)) ++
           [⟨1, 3, 5⟩] }) ∧
    update_connection (oraThrow 5) dbW 1 1 1 3 5 (some 2) =
      ({ success := false, message := "Error al actualizar la conexión" }, dbW) ∧
    update_connection oraOk dbW 1 1 1 3 5 none =
      ({ success := false,
         message := "No existe una conexión entre estas paradas para actualizar" }, dbW) ∧
    update_connection oraOk dbW 1 1 1 2 5 none =
      ({ success := true, message := "Conexión actualizada exitosamente" },
       { dbW with vecinos := dbW.vecinos.map fun v =>
           if v.parada_origen_id = 1 ∧ v.parada_destino_id = 2 then
             { v with distancia := 5 }
           else v }) :=
  ⟨(C4_update_connection_semantics dbW 1 1 1 2 3 5 (by decide) (by norm_num)
      (by decide) (by decide)).1 (by decide) (by decide),
   (C4_update_connection_semantics dbW2 1 1 1 3 2 5 (by decide) (by norm_num)
      (by decide) (by decide)).2.1 (by decide) (by decide) (by decide),
   (C4_update_connection_semantics dbW 1 1 1 3 2 5 (by decide) (by norm_num)
      (by decide) (by decide)).2.2.1 (by decide) (by decide) (by decide),
   (C4_update_connection_semantics dbW 1 1 1 3 2 5 (by decide) (by norm_num)
      (by decide) (by decide)).2.2.2.1 (by decide) (by decide) (by decide),
   (C4_update_connection_semantics dbW 1 1 1 3 2 5 (by decide) (by norm_num)
      (by decide) (by decide)).2.2.2.2.1 none (by decide) (by decide),
   (C4_update_connection_semantics dbW 1 1 1 2 3 5 (by decide) (by norm_num)
      (by decide) (by decide)).2.2.2.2.2 none (by decide) (by decide)⟩

/-- C8: for an owned route and valid ids, the availability query succeeds,
leaves the store untouched, and returns exactly the stops of the route other
than the source and not already the destination of a connection whose origin
is the source. -/
theorem C8_available_destinations (db : DB) (s rid uid : Int)
    (hs : 0 < s) (hr : 0 < rid) (hown : routeOwnedCount db rid uid ≠ 0) :
    (get_available_stops_for_connection oraOk db s rid uid).1.success = true ∧
    (get_available_stops_for_connection oraOk db s rid uid).2 = db ∧
    ∀ q : Parada,
      q ∈ (get_available_stops_for_connection oraOk db s rid uid).1.paradas ↔
        (q ∈ db.paradas ∧ q.ruta_id = rid ∧ q.id ≠ s ∧
          ∀ v ∈ db.vecinos,
            ¬(v.parada_origen_id = s ∧ v.parada_destino_id = q.id)) := by
  have hns := not_le.mpr hs
  have hnr := not_le.mpr hr
  have key : get_available_stops_for_connection oraOk db s rid uid =
      if availableStops db s rid = [] then
        ({ success := true,
           message := "No se encontraron paradas disponibles para conectar",
           paradas := [] }, db)
      else
        ({ success := true,
           message := "Se encontraron " ++ toString (availableStops db s rid).length ++
             " paradas disponibles",
           paradas := availableStops db s rid }, db) := by
    by_cases hc : availableStops db s rid = [] <;>
      simp [get_available_stops_for_connection,
        get_available_stops_for_connection_body, oraOk, hns, hnr, hown, hc]
  refine ⟨?_, ?_, ?_⟩
  · rw [key]; split <;> rfl
  · rw [key]; split <;> rfl
  · intro q
    have hmem := mem_availableStops db s rid q
    rw [key]
    by_cases hlen : availableStops db s rid = []
    · rw [if_pos hlen]
      rw [hlen] at hmem
      simpa using hmem
    · rw [if_neg hlen]
      exact hmem

/-- Witness for C8_available_destinations: Scenario D, source stop 1 of
route 1 with the edge from 1 to 2 present. -/
theorem C8_available_destinations_witness :
    (get_available_stops_for_connection oraOk dbW 1 1 1).1.success = true ∧
    (get_available_stops_for_connection oraOk dbW 1 1 1).2 = dbW ∧
    ∀ q : Parada,
      q ∈ (get_available_stops_for_connection oraOk dbW 1 1 1).1.paradas ↔
        (q ∈ dbW.paradas ∧ q.ruta_id = 1 ∧ q.id ≠ 1 ∧
          ∀ v ∈ dbW.vecinos,
            ¬(v.parada_origen_id = 1 ∧ v.parada_destino_id = q.id)) :=
  C8_available_destinations dbW 1 1 1 (by decide) (by decide) (by decide)

set_option maxHeartbeats 1600000 in
/-- C9: the availability query is a read: it returns the store unchanged,
so a second call with the same arguments and no intervening mutation sees
the same store and returns the identical result. -/
theorem C9_available_idempotent (ora : Ora) (db : DB) (s rid uid : Int) :
    (get_available_stops_for_connection ora db s rid uid).2 = db ∧
    get_available_stops_for_connection ora
        (get_available_stops_for_connection ora db s rid uid).2 s rid uid =
      get_available_stops_for_connection ora db s rid uid := by
  have h2 : (get_available_stops_for_connection ora db s rid uid).2 = db := by
    simp only [get_available_stops_for_connection,
      get_available_stops_for_connection_body]
    split_ifs <;> rfl
  exact ⟨h2, by rw [h2]⟩

/-- C10: every public controller operation on routes, stops and connections
is total at its interface: whatever the oracle makes the try-block raise, the
wrapper returns the catch-all dict of that method, with success false and the
fixed error message, instead of propagating the exception. -/
theorem C10_controllers_catch_exceptions (ora : Ora) (db : DB)
    (uid rid sid o d : Int) (dist : Rat) (nombre descripcion : String)
    (descO : Option String) (prev : Option Int) :
    (∀ e, get_user_routes_body ora db uid = .error e →
      get_user_routes ora db uid =
        ({ success := false, message := "Error al obtener las rutas",
           routes := [] }, db)) ∧
    (∀ e, create_route_body ora db uid nombre descripcion = .error e →
      create_route ora db uid nombre descripcion =
        ({ success := false, message := "Error al crear la ruta",
           route := none }, db)) ∧
    (∀ e, get_route_by_id_body ora db rid uid = .error e →
      get_route_by_id ora db rid uid =
        ({ success := false, message := "Error al obtener la ruta",
           route := none }, db)) ∧
    (∀ e, delete_route_body ora db rid uid = .error e →
      delete_route ora db rid uid =
        ({ success := false, message := "Error al eliminar la ruta" }, db)) ∧
    (∀ e, get_route_stops_body ora db rid uid = .error e →
      get_route_stops ora db rid uid =
        ({ success := false, message := "Error al obtener las paradas",
           paradas := [] }, db)) ∧
    (∀ e, create_stop_body ora db rid uid nombre descO = .error e →
      create_stop ora db rid uid nombre descO =
        ({ success := false, message := "Error al crear la parada",
           parada := none }, db)) ∧
    (∀ e, update_stop_body ora db sid rid uid nombre descO = .error e →
      update_stop ora db sid rid uid nombre descO =
        ({ success := false, message := "Error al actualizar la parada" }, db)) ∧
    (∀ e, delete_stop_body ora db sid rid uid = .error e →
      delete_stop ora db sid rid uid =
        ({ success := false, message := "Error al eliminar la parada" }, db)) ∧
    (∀ e, get_route_connections_body ora db rid uid = .error e →
      get_route_connections ora db rid uid =
        ({ success := false, message := "Error al obtener las conexiones",
           conexiones := [] }, db)) ∧
    (∀ e, create_connection_body ora db rid uid o d dist = .error e →
      create_connection ora db rid uid o d dist =
        ({ success := false, message := "Error al crear la conexión",
           conexion := none }, db)) ∧
    (∀ e, delete_connection_body ora db rid uid o d = .error e →
      delete_connection ora db rid uid o d =
        ({ success := false, message := "Error al eliminar la conexión" }, db)) ∧
    (∀ e, get_stop_connections_body ora db sid rid uid = .error e →
      get_stop_connections ora db sid rid uid =
        ({ success := false, message := "Error al obtener las conexiones",
           conexiones := [] }, db)) ∧
    (∀ e, get_available_stops_for_connection_body ora db sid rid uid = .error e →
      get_available_stops_for_connection ora db sid rid uid =
        ({ success := false, message := "Error al obtener las paradas disponibles",
           paradas := [] }, db)) ∧
    (∀ e, get_route_stops_for_connections_body ora db rid uid = .error e →
      get_route_stops_for_connections ora db rid uid =
        ({ success := false, message := "Error al obtener las paradas",
           paradas := [] }, db)) ∧
    (∀ e, update_connection_body ora db rid uid o d dist prev = .error e →
      update_connection ora db rid uid o d dist prev =
        ({ success := false, message := "Error al actualizar la conexión" }, db)) := by
  refine ⟨?_, ?_, ?_, ?_, ?_, ?_, ?_, ?_, ?_, ?_, ?_, ?_, ?_, ?_, ?_⟩ <;>
    intro e h
  · unfold get_user_routes; rw [h]
  · unfold create_route; rw [h]
  · unfold get_route_by_id; rw [h]
  · unfold delete_route; rw [h]
  · unfold get_route_stops; rw [h]
  · unfold create_stop; rw [h]
  · unfold update_stop; rw [h]
  · unfold delete_stop; rw [h]
  · unfold get_route_connections; rw [h]
  · unfold create_connection; rw [h]
  · unfold delete_connection; rw [h]
  · unfold get_stop_connections; rw [h]
  · unfold get_available_stops_for_connection; rw [h]
  · unfold get_route_stops_for_connections; rw [h]
  · unfold update_connection; rw [h]

/-- Witness for C10_controllers_catch_exceptions: under the oracle that
raises at the very first database call, every operation returns its catch-all
error dict. -/
theorem C10_controllers_catch_exceptions_witness :
    get_user_routes (oraThrow 0) dbW 1 =
      ({ success := false, message := "Error al obtener las rutas",
         routes := [] }, dbW) ∧
    create_route (oraThrow 0) dbW 1 "AB" "" =
      ({ success := false, message := "Error al crear la ruta",
         route := none }, dbW) ∧
    get_route_by_id (oraThrow 0) dbW 1 1 =
      ({ success := false, message := "Error al obtener la ruta",
         route := none }, dbW) ∧
    delete_route (oraThrow 0) dbW 1 1 =
      ({ success := false, message := "Error al eliminar la ruta" }, dbW) ∧
    get_route_stops (oraThrow 0) dbW 1 1 =
      ({ success := false, message := "Error al obtener las paradas",
         paradas := [] }, dbW) ∧
    create_stop (oraThrow 0) dbW 1 1 "AB" none =
      ({ success := false, message := "Error al crear la parada",
         parada := none }, dbW) ∧
    update_stop (oraThrow 0) dbW 1 1 1 "AB" none =
      ({ success := false, message := "Error al actualizar la parada" }, dbW) ∧
    delete_stop (oraThrow 0) dbW 1 1 1 =
      ({ success := false, message := "Error al eliminar la parada" }, dbW) ∧
    get_route_connections (oraThrow 0) dbW 1 1 =
      ({ success := false, message := "Error al obtener las conexiones",
         conexiones := [] }, dbW) ∧
    create_connection (oraThrow 0) dbW 1 1 1 2 1 =
      ({ success := false, message := "Error al crear la conexión",
         conexion := none }, dbW) ∧
    delete_connection (oraThrow 0) dbW 1 1 1 2 =
      ({ success := false, message := "Error al eliminar la conexión" }, dbW) ∧
    get_stop_connections (oraThrow 0) dbW 1 1 1 =
      ({ success := false, message := "Error al obtener las conexiones",
         conexiones := [] }, dbW) ∧
    get_available_stops_for_connection (oraThrow 0) dbW 1 1 1 =
      ({ success := false, message := "Error al obtener las paradas disponibles",
         paradas := [] }, dbW) ∧
    get_route_stops_for_connections (oraThrow 0) dbW 1 1 =
      ({ success := false, message := "Error al obtener las paradas",
         paradas := [] }, dbW) ∧
    update_connection (oraThrow 0) dbW 1 1 1 2 1 none =
      ({ success := false, message := "Error al actualizar la conexión" }, dbW) := by
  have h := C10_controllers_catch_exceptions (oraThrow 0) dbW 1 1 1 1 2 1 "AB" ""
    none none
  exact ⟨h.1 .exn rfl, h.2.1 .exn rfl, h.2.2.1 .exn rfl, h.2.2.2.1 .exn rfl,
    h.2.2.2.2.1 .exn rfl, h.2.2.2.2.2.1 .exn rfl, h.2.2.2.2.2.2.1 .exn rfl,
    h.2.2.2.2.2.2.2.1 .exn rfl, h.2.2.2.2.2.2.2.2.1 .exn rfl,
    h.2.2.2.2.2.2.2.2.2.1 .exn rfl, h.2.2.2.2.2.2.2.2.2.2.1 .exn rfl,
    h.2.2.2.2.2.2.2.2.2.2.2.1 .exn rfl, h.2.2.2.2.2.2.2.2.2.2.2.2.1 .exn rfl,
    h.2.2.2.2.2.2.2.2.2.2.2.2.2.1 .exn rfl,
    h.2.2.2.2.2.2.2.2.2.2.2.2.2.2 .exn rfl⟩
